import Mathlib

/-!
Shallow embedding of `example_extension/example.py`: an in-memory SFTPPlus
server extension that validates credentials (password, SSH key, SSL
certificate) against a users database and looks up per-account
configuration.

Python dictionaries keyed by username become functions
`String → Option Account`; the membership-guarded flag reads
(`'denied' in user_data and user_data['denied']`) become `Bool` fields of
`Account` that default to `false` when the key is absent.  The Python
return values `True` / `False` / `None` of the validators become the
tri-state `Verdict`.  Raised exceptions become the `Except.error` side of
`validateCredentials`.
-/

/-- Verdict of a validator: Python `True` is `accepted`, `False` is
`rejected`, and `None` is `indeterminate` (let other mechanisms decide). -/
inductive Verdict
  | accepted
  | rejected
  | indeterminate
deriving DecidableEq, Repr

/-- Faults that `validateCredentials` can raise:
`externalAuthenticationException` models the
`ExternalAuthenticationException` raised for a denied account (the spec's
`AccountDenied`), and `assertionError` models the `AssertionError` raised
for an account flagged with `internal_error` (the spec's `InternalFault`).
Each carries the message string built in the source. -/
inductive Fault
  | externalAuthenticationException (msg : String)
  | assertionError (msg : String)
deriving DecidableEq, Repr

/-- Subject of an SSL certificate; `commonName` models the
`subject.commonName` attribute read in `_validateSSLCredentials`. -/
structure Subject where
  commonName : String
deriving DecidableEq, Repr

deriving instance DecidableEq for Except

/-- An SSL certificate.  `get_subject` models the
`certificate.get_subject()` call of the source, which may raise an
arbitrary exception (the source catches it with a bare `except:`); the
`Except.error` side carries a description of the raised fault. -/
structure Certificate where
  get_subject : Except String Subject
deriving DecidableEq, Repr

/-- Credentials providing the `IPasswordCredentials` interface:
a username and a password string (the empty string is falsy in Python,
modelling absent password data). -/
structure PasswordCredentials where
  username : String
  password : String
deriving DecidableEq, Repr

/-- Credentials providing the `ISSHKeyCredentials` interface: a username
and the supplied key material `key_data` (the empty string is falsy in
Python, modelling absent key data). -/
structure SSHKeyCredentials where
  username : String
  key_data : String
deriving DecidableEq, Repr

/-- Credentials providing the `ISSLCertificateCredentials` interface: a
username and an optional certificate (`none` models a falsy
`credentials.certificate`). -/
structure SSLCertificateCredentials where
  username : String
  certificate : Option Certificate
deriving DecidableEq, Repr

/-- A credential assertion, a tagged variant over the three credential
interfaces the source dispatches on with `providedBy`, plus `unknown` for
a credential object providing none of the three. -/
inductive Credentials
  | password (c : PasswordCredentials)
  | sshKey (c : SSHKeyCredentials)
  | sslCertificate (c : SSLCertificateCredentials)
  | unknown (username : String)
deriving DecidableEq, Repr

/-- The `credentials.username` attribute, common to every credential
kind. -/
def Credentials.username : Credentials → String
  | .password c => c.username
  | .sshKey c => c.username
  | .sslCertificate c => c.username
  | .unknown u => u

/-- The optional `configuration` record of an account
(`create_home_folder` and `home_folder_path` keys of the nested dict). -/
structure Configuration where
  create_home_folder : Bool
  home_folder_path : String
deriving DecidableEq, Repr

/-- Account data stored in the users database, one entry of the `USERS`
dict.  `denied` and `internal_error` default to `false`, matching the
source's membership-guarded reads (`'denied' in user_data and
user_data['denied']`); `configuration` is `none` when the account dict
has no `configuration` key (the `KeyError` branch of
`getAccountConfiguration`). -/
structure Account where
  password : String := ""
  ssh_keys : List String := []
  allow_certificate : Bool := false
  denied : Bool := false
  internal_error : Bool := false
  configuration : Option Configuration := none
deriving DecidableEq, Repr

/-- The users database: the dict from username to account data;
`none` models a username absent from the dict. -/
abbrev UsersDatabase : Type := String → Option Account

/-- The `InMemoryExternalAvatar` built by `getAccountConfiguration` from a
username and the account's configuration record. -/
structure InMemoryExternalAvatar where
  _name : String
  _configuration : Configuration
deriving DecidableEq, Repr

/-- The `name` property of the avatar. -/
def InMemoryExternalAvatar.name (a : InMemoryExternalAvatar) : String :=
  a._name

/-- The `create_home_folder` property of the avatar, read from its
configuration record. -/
def InMemoryExternalAvatar.create_home_folder
    (a : InMemoryExternalAvatar) : Bool :=
  a._configuration.create_home_folder

/-- The `home_folder_path` property of the avatar, read from its
configuration record. -/
def InMemoryExternalAvatar.home_folder_path
    (a : InMemoryExternalAvatar) : String :=
  a._configuration.home_folder_path

/-- Modelled from the spec: `is_key_authorized` is imported by the source
from `chevah.server.extensions` and its code is not part of this
repository.  Per the spec it is "an externally-defined key-authorization
check" that accepts exactly when the supplied key is matched by any stored
key;
the underlying per-key match is the parameter `matchKey`, applied to the
credentials' `key_data` and a stored key. -/
def is_key_authorized (matchKey : String → String → Bool)
    (credentials : SSHKeyCredentials) (keys : List String) : Bool :=
  keys.any (fun k => matchKey credentials.key_data k)

/-- Embedding of `InMemoryExtension._validatePasswordCredentials`.  The
account data of `credentials.username` is passed directly as `user_data`
(the source re-reads `self._users_database[username]`, which is the same
entry since the method is only reached when the username is present). -/
def _validatePasswordCredentials (user_data : Account)
    (credentials : PasswordCredentials) : Verdict :=
  let password := credentials.password
  if password = "" then
    Verdict.indeterminate
  else if user_data.password = "" then
    Verdict.rejected
  else if password = user_data.password then
    Verdict.accepted
  else
    Verdict.rejected

/-- Embedding of `InMemoryExtension._validateSSHCredentials`; `user_data`
is the account entry of `credentials.username` as in
`_validatePasswordCredentials`. -/
def _validateSSHCredentials (matchKey : String → String → Bool)
    (user_data : Account) (credentials : SSHKeyCredentials) : Verdict :=
  if credentials.key_data = "" then
    Verdict.rejected
  else
    let keys := user_data.ssh_keys
    if keys = [] then
      Verdict.rejected
    else if is_key_authorized matchKey credentials keys then
      Verdict.accepted
    else
      Verdict.rejected

/-- Embedding of `InMemoryExtension._validateSSLCredentials`; `user_data`
is the account entry of `credentials.username`.  The `try`/`except`
around `get_subject()` becomes a match on its `Except` result. -/
def _validateSSLCredentials (user_data : Account)
    (credentials : SSLCertificateCredentials) : Verdict :=
  match credentials.certificate with
  | none => Verdict.rejected
  | some certificate =>
    if !user_data.allow_certificate then
      Verdict.rejected
    else
      match certificate.get_subject with
      | Except.error _ => Verdict.rejected
      | Except.ok subject =>
        if subject.commonName = credentials.username then
          Verdict.accepted
        else
          Verdict.rejected

/-- Embedding of `InMemoryExtension.validateCredentials`.  Returns
`Except.error` for the two raised exceptions and `Except.ok` with the
verdict otherwise.  The `service_configuration` argument of the source is
unused there and omitted here. -/
def validateCredentials (matchKey : String → String → Bool)
    (users_database : UsersDatabase) (credentials : Credentials) :
    Except Fault Verdict :=
  let username := credentials.username
  match users_database username with
  | none => Except.ok Verdict.rejected
  | some user_data =>
    if user_data.denied then
      Except.error (Fault.externalAuthenticationException
        ("Acount \"" ++ username ++ "\" is denied."))
    else if user_data.internal_error then
      Except.error (Fault.assertionError
        ("Internal server error for \"" ++ username ++ "\"."))
    else
      match credentials with
      | Credentials.password c =>
        Except.ok (_validatePasswordCredentials user_data c)
      | Credentials.sshKey c =>
        Except.ok (_validateSSHCredentials matchKey user_data c)
      | Credentials.sslCertificate c =>
        Except.ok (_validateSSLCredentials user_data c)
      | Credentials.unknown _ => Except.ok Verdict.rejected

/-- Embedding of `InMemoryExtension.getAccountConfiguration`.  The
source's `try`/`except KeyError` covers both a missing username and a
missing `configuration` key; both become `none` here. -/
def getAccountConfiguration (users_database : UsersDatabase)
    (credentials : Credentials) : Option InMemoryExternalAvatar :=
  let username := credentials.username
  match users_database username with
  | none => none
  | some user_data =>
    match user_data.configuration with
    | none => none
    | some configuration =>
      some { _name := username, _configuration := configuration }

/-- Unfolding lemma for `validateCredentials` when the username is
present in the users database. -/
theorem validateCredentials_of_some (matchKey : String → String → Bool)
    (users_database : UsersDatabase) (credentials : Credentials)
    (user_data : Account)
    (h : users_database credentials.username = some user_data) :
    validateCredentials matchKey users_database credentials =
      if user_data.denied then
        Except.error (Fault.externalAuthenticationException
          ("Acount \"" ++ credentials.username ++ "\" is denied."))
      else if user_data.internal_error then
        Except.error (Fault.assertionError
          ("Internal server error for \"" ++ credentials.username ++ "\"."))
      else
        match credentials with
        | Credentials.password c =>
          Except.ok (_validatePasswordCredentials user_data c)
        | Credentials.sshKey c =>
          Except.ok (_validateSSHCredentials matchKey user_data c)
        | Credentials.sslCertificate c =>
          Except.ok (_validateSSLCredentials user_data c)
        | Credentials.unknown _ => Except.ok Verdict.rejected := by
  simp only [validateCredentials, h]

/-- Claim C1: for a credential of any kind whose username is present in
the users database, `validateCredentials` raises a fault exactly when the
account has `denied = true` (raising the denied exception) or
`internal_error = true` (raising the internal-error fault); the raise is
determined by the account flags alone, for every credential kind and
payload, so it happens before any kind-specific check; in every other
case a verdict is returned and nothing is raised. -/
theorem C1_fault_boundary (matchKey : String → String → Bool)
    (users_database : UsersDatabase) (credentials : Credentials)
    (acc : Account)
    (hacc : users_database credentials.username = some acc) :
    ((∃ f, validateCredentials matchKey users_database credentials =
        Except.error f) ↔ (acc.denied = true ∨ acc.internal_error = true)) ∧
    (acc.denied = true →
      validateCredentials matchKey users_database credentials =
        Except.error (Fault.externalAuthenticationException
          ("Acount \"" ++ credentials.username ++ "\" is denied."))) ∧
    (acc.denied = false → acc.internal_error = true →
      validateCredentials matchKey users_database credentials =
        Except.error (Fault.assertionError
          ("Internal server error for \"" ++ credentials.username ++
            "\"."))) ∧
    (acc.denied = false → acc.internal_error = false →
      ∃ v, validateCredentials matchKey users_database credentials =
        Except.ok v) := by
  rw [validateCredentials_of_some matchKey users_database credentials acc
    hacc]
  cases hd : acc.denied <;> cases hi : acc.internal_error <;>
    simp <;> cases credentials <;> simp

/-- Per-key matcher used by the concrete test database: byte-for-byte
equality of the key blobs. -/
def eqMatch : String → String → Bool := fun a b => a == b

/-- Test account mirroring `user1` of the source's `USERS` table (key
blobs abbreviated). -/
def user1Data : Account :=
  { password := "password1"
    ssh_keys := ["ssh-rsa AAAA pub1", "ssh-rsa AAAA pub1"]
    allow_certificate := false
    configuration :=
      some { create_home_folder := false, home_folder_path := "/tmp" } }

/-- Test account mirroring `user2` of the source's `USERS` table. -/
def user2Data : Account :=
  { password := ""
    ssh_keys := []
    allow_certificate := true
    configuration :=
      some { create_home_folder := true, home_folder_path := "/tmp/user2" } }

/-- Test account mirroring `user3` of the source's `USERS` table: a
denied account. -/
def user3Data : Account := { denied := true }

/-- Test account mirroring `user4` of the source's `USERS` table: an
account that triggers an internal server error. -/
def user4Data : Account := { internal_error := true }

/-- Concrete users database used to instantiate the theorems, holding
the four test accounts. -/
def witnessDb : UsersDatabase := fun u =>
  if u = "user1" then some user1Data
  else if u = "user2" then some user2Data
  else if u = "user3" then some user3Data
  else if u = "user4" then some user4Data
  else none

/-- Witness for C1, instantiated at an SSH-key credential for the denied
account `user3`. -/
theorem C1_fault_boundary_witness :
    witnessDb
      (Credentials.username
        (Credentials.sshKey { username := "user3", key_data := "k" })) =
      some user3Data ∧
    validateCredentials eqMatch witnessDb
      (Credentials.sshKey { username := "user3", key_data := "k" }) =
      Except.error (Fault.externalAuthenticationException
        "Acount \"user3\" is denied.") := by
  refine ⟨by decide, ?_⟩
  have h := C1_fault_boundary eqMatch witnessDb
    (Credentials.sshKey { username := "user3", key_data := "k" })
    user3Data (by decide)
  exact h.2.1 rfl

/-- Claim C7: for a credential of any kind whose username is absent from
the users database, `validateCredentials` returns the verdict `rejected`
and raises no fault. -/
theorem C7_unknown_username (matchKey : String → String → Bool)
    (users_database : UsersDatabase) (credentials : Credentials)
    (habs : users_database credentials.username = none) :
    validateCredentials matchKey users_database credentials =
      Except.ok Verdict.rejected := by
  simp [validateCredentials, habs]

/-- Witness for C7, instantiated at a password credential for a username
not in the database. -/
theorem C7_unknown_username_witness :
    witnessDb
      (Credentials.username
        (Credentials.password { username := "nobody", password := "x" })) =
      none ∧
    validateCredentials eqMatch witnessDb
      (Credentials.password { username := "nobody", password := "x" }) =
      Except.ok Verdict.rejected :=
  ⟨by decide,
    C7_unknown_username eqMatch witnessDb
      (Credentials.password { username := "nobody", password := "x" })
      (by decide)⟩

/-- Claim C9: for a credential whose account has both `denied = true` and
`internal_error = true`, `validateCredentials` raises the denied
exception (not the internal-error fault): the denied check runs first. -/
theorem C9_denied_checked_first (matchKey : String → String → Bool)
    (users_database : UsersDatabase) (credentials : Credentials)
    (acc : Account)
    (hacc : users_database credentials.username = some acc)
    (hd : acc.denied = true) (hi : acc.internal_error = true) :
    validateCredentials matchKey users_database credentials =
      Except.error (Fault.externalAuthenticationException
        ("Acount \"" ++ credentials.username ++ "\" is denied.")) := by
  simp [validateCredentials, hacc, hd]

/-- Account with both fault flags set, used by the C9 witness. -/
def bothFlagsData : Account := { denied := true, internal_error := true }

/-- Users database for the C9 witness: one account with both `denied`
and `internal_error` set. -/
def bothFlagsDb : UsersDatabase := fun u =>
  if u = "both" then some bothFlagsData else none

/-- Witness for C9, instantiated at a password credential for an account
with both flags set. -/
theorem C9_denied_checked_first_witness :
    bothFlagsDb
      (Credentials.username
        (Credentials.password { username := "both", password := "x" })) =
      some bothFlagsData ∧
    bothFlagsData.denied = true ∧ bothFlagsData.internal_error = true ∧
    validateCredentials eqMatch bothFlagsDb
      (Credentials.password { username := "both", password := "x" }) =
      Except.error (Fault.externalAuthenticationException
        "Acount \"both\" is denied.") := by
  refine ⟨by decide, rfl, rfl, ?_⟩
  exact C9_denied_checked_first eqMatch bothFlagsDb
    (Credentials.password { username := "both", password := "x" })
    bothFlagsData (by decide) rfl rfl

/-- Claim C2: password validation for a present account that is neither
denied nor flagged with an internal error: an empty supplied password
gives `indeterminate`; otherwise an empty stored password gives
`rejected`; otherwise the verdict is `accepted` exactly when the supplied
password equals the stored one, and `rejected` otherwise. -/
theorem C2_password_validation (matchKey : String → String → Bool)
    (users_database : UsersDatabase) (u pw : String) (acc : Account)
    (hacc : users_database u = some acc)
    (hd : acc.denied = false) (hi : acc.internal_error = false) :
    (pw = "" →
      validateCredentials matchKey users_database
        (Credentials.password { username := u, password := pw }) =
        Except.ok Verdict.indeterminate) ∧
    (pw ≠ "" → acc.password = "" →
      validateCredentials matchKey users_database
        (Credentials.password { username := u, password := pw }) =
        Except.ok Verdict.rejected) ∧
    (pw ≠ "" → acc.password ≠ "" →
      ((validateCredentials matchKey users_database
          (Credentials.password { username := u, password := pw }) =
          Except.ok Verdict.accepted) ↔ pw = acc.password) ∧
      (pw ≠ acc.password →
        validateCredentials matchKey users_database
          (Credentials.password { username := u, password := pw }) =
          Except.ok Verdict.rejected)) := by
  have h := validateCredentials_of_some matchKey users_database
    (Credentials.password { username := u, password := pw }) acc
    (by simpa [Credentials.username] using hacc)
  rw [h]
  refine ⟨?_, ?_, ?_⟩
  · intro hpw
    simp [_validatePasswordCredentials, hd, hi, hpw]
  · intro hpw hstored
    simp [_validatePasswordCredentials, hd, hi, hpw, hstored]
  · intro hpw hstored
    constructor
    · constructor
      · intro heq
        by_cases he : pw = acc.password
        · exact he
        · simp [_validatePasswordCredentials, hd, hi, hpw, hstored, he]
            at heq
      · intro he
        simp [_validatePasswordCredentials, hd, hi, hpw, hstored, he]
    · intro hne
      simp [_validatePasswordCredentials, hd, hi, hpw, hstored, hne]

/-- Witness for C2, instantiated at `user1` with the matching supplied
password. -/
theorem C2_password_validation_witness :
    witnessDb "user1" = some user1Data ∧
    user1Data.denied = false ∧ user1Data.internal_error = false ∧
    validateCredentials eqMatch witnessDb
      (Credentials.password
        { username := "user1", password := "password1" }) =
      Except.ok Verdict.accepted := by
  refine ⟨by decide, rfl, rfl, ?_⟩
  have h := C2_password_validation eqMatch witnessDb "user1" "password1"
    user1Data (by decide) rfl rfl
  exact ((h.2.2 (by decide) (by decide)).1).mpr (by decide)

/-- Claim C3: certificate validation for a present account that is
neither denied nor flagged with an internal error: no supplied
certificate gives `rejected`; with a certificate and
`allow_certificate = false` the verdict is `rejected` (whatever the
common name, including one equal to the username); otherwise, when the
subject extraction succeeds, the verdict is `accepted` exactly when the
subject's common name equals the username, and `rejected` otherwise. -/
theorem C3_certificate_validation (matchKey : String → String → Bool)
    (users_database : UsersDatabase) (u : String)
    (certOpt : Option Certificate) (acc : Account)
    (hacc : users_database u = some acc)
    (hd : acc.denied = false) (hi : acc.internal_error = false) :
    (certOpt = none →
      validateCredentials matchKey users_database
        (Credentials.sslCertificate
          { username := u, certificate := certOpt }) =
        Except.ok Verdict.rejected) ∧
    (∀ cert, certOpt = some cert → acc.allow_certificate = false →
      validateCredentials matchKey users_database
        (Credentials.sslCertificate
          { username := u, certificate := certOpt }) =
        Except.ok Verdict.rejected) ∧
    (∀ cert subject, certOpt = some cert →
      acc.allow_certificate = true →
      cert.get_subject = Except.ok subject →
      ((validateCredentials matchKey users_database
          (Credentials.sslCertificate
            { username := u, certificate := certOpt }) =
          Except.ok Verdict.accepted) ↔ subject.commonName = u) ∧
      (subject.commonName ≠ u →
        validateCredentials matchKey users_database
          (Credentials.sslCertificate
            { username := u, certificate := certOpt }) =
          Except.ok Verdict.rejected)) := by
  have h := validateCredentials_of_some matchKey users_database
    (Credentials.sslCertificate { username := u, certificate := certOpt })
    acc (by simpa [Credentials.username] using hacc)
  rw [h]
  refine ⟨?_, ?_, ?_⟩
  · intro hnone
    simp [_validateSSLCredentials, hd, hi, hnone]
  · intro cert hsome hallow
    simp [_validateSSLCredentials, hd, hi, hsome, hallow]
  · intro cert subject hsome hallow hsub
    constructor
    · constructor
      · intro heq
        by_cases hcn : subject.commonName = u
        · exact hcn
        · simp [_validateSSLCredentials, hd, hi, hsome, hallow, hsub,
            hcn] at heq
      · intro hcn
        simp [_validateSSLCredentials, hd, hi, hsome, hallow, hsub, hcn]
    · intro hcn
      simp [_validateSSLCredentials, hd, hi, hsome, hallow, hsub, hcn]

/-- Certificate whose subject extraction succeeds with common name
`user2`, used by the C3 witness. -/
def goodCert : Certificate :=
  { get_subject := Except.ok { commonName := "user2" } }

/-- Witness for C3, instantiated at `user2` (which allows certificates)
with a certificate whose common name equals the username. -/
theorem C3_certificate_validation_witness :
    witnessDb "user2" = some user2Data ∧
    user2Data.denied = false ∧ user2Data.internal_error = false ∧
    user2Data.allow_certificate = true ∧
    goodCert.get_subject = Except.ok { commonName := "user2" } ∧
    validateCredentials eqMatch witnessDb
      (Credentials.sslCertificate
        { username := "user2", certificate := some goodCert }) =
      Except.ok Verdict.accepted := by
  refine ⟨by decide, rfl, rfl, rfl, rfl, ?_⟩
  have h := C3_certificate_validation eqMatch witnessDb "user2"
    (some goodCert) user2Data (by decide) rfl rfl
  exact ((h.2.2 goodCert { commonName := "user2" } rfl rfl rfl).1).mpr rfl

/-- Claim C4: for a certificate credential that reaches the
subject-extraction step (certificate supplied, account present, not
denied, no internal error, certificates allowed), a fault raised while
extracting the subject yields the verdict `rejected`: the fault is
swallowed and `validateCredentials` returns `Except.ok`, so nothing
propagates out. -/
theorem C4_subject_fault_swallowed (matchKey : String → String → Bool)
    (users_database : UsersDatabase) (u : String) (acc : Account)
    (cert : Certificate) (e : String)
    (hacc : users_database u = some acc)
    (hd : acc.denied = false) (hi : acc.internal_error = false)
    (hallow : acc.allow_certificate = true)
    (hsub : cert.get_subject = Except.error e) :
    validateCredentials matchKey users_database
      (Credentials.sslCertificate
        { username := u, certificate := some cert }) =
      Except.ok Verdict.rejected := by
  have h := validateCredentials_of_some matchKey users_database
    (Credentials.sslCertificate { username := u, certificate := some cert })
    acc (by simpa [Credentials.username] using hacc)
  rw [h]
  simp [_validateSSLCredentials, hd, hi, hallow, hsub]

/-- Certificate whose subject extraction raises, used by the C4
witness. -/
def faultyCert : Certificate :=
  { get_subject := Except.error "subject extraction failed" }

/-- Witness for C4, instantiated at `user2` with a certificate whose
subject extraction raises. -/
theorem C4_subject_fault_swallowed_witness :
    witnessDb "user2" = some user2Data ∧
    user2Data.denied = false ∧ user2Data.internal_error = false ∧
    user2Data.allow_certificate = true ∧
    faultyCert.get_subject = Except.error "subject extraction failed" ∧
    validateCredentials eqMatch witnessDb
      (Credentials.sslCertificate
        { username := "user2", certificate := some faultyCert }) =
      Except.ok Verdict.rejected :=
  ⟨by decide, rfl, rfl, rfl, rfl,
    C4_subject_fault_swallowed eqMatch witnessDb "user2" user2Data
      faultyCert "subject extraction failed" (by decide) rfl rfl rfl rfl⟩

/-- Claim C5: SSH-key validation for a present account that is neither
denied nor flagged with an internal error: no supplied key material gives
`rejected`; an empty stored key list gives `rejected`; otherwise the
verdict is `accepted` exactly when the key-authorization check matches
the supplied key against the stored keys, and `rejected` otherwise. -/
theorem C5_ssh_validation (matchKey : String → String → Bool)
    (users_database : UsersDatabase) (u kd : String) (acc : Account)
    (hacc : users_database u = some acc)
    (hd : acc.denied = false) (hi : acc.internal_error = false) :
    (kd = "" →
      validateCredentials matchKey users_database
        (Credentials.sshKey { username := u, key_data := kd }) =
        Except.ok Verdict.rejected) ∧
    (kd ≠ "" → acc.ssh_keys = [] →
      validateCredentials matchKey users_database
        (Credentials.sshKey { username := u, key_data := kd }) =
        Except.ok Verdict.rejected) ∧
    (kd ≠ "" → acc.ssh_keys ≠ [] →
      ((validateCredentials matchKey users_database
          (Credentials.sshKey { username := u, key_data := kd }) =
          Except.ok Verdict.accepted) ↔
        is_key_authorized matchKey { username := u, key_data := kd }
          acc.ssh_keys = true) ∧
      (is_key_authorized matchKey { username := u, key_data := kd }
          acc.ssh_keys = false →
        validateCredentials matchKey users_database
          (Credentials.sshKey { username := u, key_data := kd }) =
          Except.ok Verdict.rejected)) := by
  have h := validateCredentials_of_some matchKey users_database
    (Credentials.sshKey { username := u, key_data := kd }) acc
    (by simpa [Credentials.username] using hacc)
  rw [h]
  refine ⟨?_, ?_, ?_⟩
  · intro hkd
    simp [_validateSSHCredentials, hd, hi, hkd]
  · intro hkd hkeys
    simp [_validateSSHCredentials, hd, hi, hkd, hkeys]
  · intro hkd hkeys
    constructor
    · constructor
      · intro heq
        cases hauth : is_key_authorized matchKey
            { username := u, key_data := kd } acc.ssh_keys
        · simp [_validateSSHCredentials, hd, hi, hkd, hkeys, hauth]
            at heq
        · rfl
      · intro hauth
        simp [_validateSSHCredentials, hd, hi, hkd, hkeys, hauth]
    · intro hauth
      simp [_validateSSHCredentials, hd, hi, hkd, hkeys, hauth]

/-- Witness for C5, instantiated at `user1` with a supplied key equal to
a stored key. -/
theorem C5_ssh_validation_witness :
    witnessDb "user1" = some user1Data ∧
    user1Data.denied = false ∧ user1Data.internal_error = false ∧
    validateCredentials eqMatch witnessDb
      (Credentials.sshKey
        { username := "user1", key_data := "ssh-rsa AAAA pub1" }) =
      Except.ok Verdict.accepted := by
  refine ⟨by decide, rfl, rfl, ?_⟩
  have h := C5_ssh_validation eqMatch witnessDb "user1"
    "ssh-rsa AAAA pub1" user1Data (by decide) rfl rfl
  exact ((h.2.2 (by decide) (by decide)).1).mpr (by decide)

/-- Claim C6: appending a duplicate of a key already present in the
stored key list does not change the verdict of SSH validation; in
particular an `accepted` verdict stays `accepted` against the list with
the duplicate appended. -/
theorem C6_duplicate_key_invariant (matchKey : String → String → Bool)
    (user_data : Account) (credentials : SSHKeyCredentials) (k : String)
    (hne : user_data.ssh_keys ≠ []) (hk : k ∈ user_data.ssh_keys) :
    (_validateSSHCredentials matchKey
      { user_data with ssh_keys := user_data.ssh_keys ++ [k] }
      credentials =
      _validateSSHCredentials matchKey user_data credentials) ∧
    (_validateSSHCredentials matchKey user_data credentials =
        Verdict.accepted →
      _validateSSHCredentials matchKey
        { user_data with ssh_keys := user_data.ssh_keys ++ [k] }
        credentials = Verdict.accepted) := by
  have hany : (user_data.ssh_keys ++ [k]).any
      (fun x => matchKey credentials.key_data x) =
      user_data.ssh_keys.any (fun x => matchKey credentials.key_data x) := by
    cases h : user_data.ssh_keys.any
        (fun x => matchKey credentials.key_data x) with
    | false =>
      rw [List.any_append]
      have hkf := (List.any_eq_false.mp h) k hk
      simp only [h, Bool.false_or, List.any_cons, List.any_nil,
        Bool.or_false]
      simpa using hkf
    | true =>
      rw [List.any_append]
      simp [h]
  have heq : _validateSSHCredentials matchKey
      { user_data with ssh_keys := user_data.ssh_keys ++ [k] }
      credentials =
      _validateSSHCredentials matchKey user_data credentials := by
    unfold _validateSSHCredentials
    by_cases hkd : credentials.key_data = ""
    · simp [hkd]
    · have happ : user_data.ssh_keys ++ [k] ≠ [] := by simp
      simp [hkd, hne, happ, is_key_authorized, hany]
  exact ⟨heq, fun h2 => heq.trans h2⟩

/-- Witness for C6, instantiated at `user1` with its stored key
duplicated once more. -/
theorem C6_duplicate_key_invariant_witness :
    user1Data.ssh_keys ≠ [] ∧ "ssh-rsa AAAA pub1" ∈ user1Data.ssh_keys ∧
    ((_validateSSHCredentials eqMatch
      { user1Data with
          ssh_keys := user1Data.ssh_keys ++ ["ssh-rsa AAAA pub1"] }
      { username := "user1", key_data := "ssh-rsa AAAA pub1" } =
      _validateSSHCredentials eqMatch user1Data
        { username := "user1", key_data := "ssh-rsa AAAA pub1" }) ∧
    (_validateSSHCredentials eqMatch user1Data
        { username := "user1", key_data := "ssh-rsa AAAA pub1" } =
        Verdict.accepted →
      _validateSSHCredentials eqMatch
        { user1Data with
            ssh_keys := user1Data.ssh_keys ++ ["ssh-rsa AAAA pub1"] }
        { username := "user1", key_data := "ssh-rsa AAAA pub1" } =
        Verdict.accepted)) :=
  ⟨by decide, by decide,
    C6_duplicate_key_invariant eqMatch user1Data
      { username := "user1", key_data := "ssh-rsa AAAA pub1" }
      "ssh-rsa AAAA pub1" (by decide) (by decide)⟩

/-- Claim C8: for a username present in the users database,
`getAccountConfiguration` returns an avatar whose `name`,
`create_home_folder` and `home_folder_path` are taken from the account's
configuration record when one is present, and returns `none` (raising
nothing) when the account has no configuration entry. -/
theorem C8_configuration_lookup (users_database : UsersDatabase)
    (credentials : Credentials) (acc : Account)
    (hacc : users_database credentials.username = some acc) :
    (∀ conf, acc.configuration = some conf →
      ∃ a, getAccountConfiguration users_database credentials = some a ∧
        a.name = credentials.username ∧
        a.create_home_folder = conf.create_home_folder ∧
        a.home_folder_path = conf.home_folder_path) ∧
    (acc.configuration = none →
      getAccountConfiguration users_database credentials = none) := by
  constructor
  · intro conf hconf
    refine ⟨{ _name := credentials.username, _configuration := conf },
      ?_, rfl, rfl, rfl⟩
    simp [getAccountConfiguration, hacc, hconf]
  · intro hconf
    simp [getAccountConfiguration, hacc, hconf]

/-- Witness for C8, instantiated at `user1` (which has a configuration
record). -/
theorem C8_configuration_lookup_witness :
    witnessDb (Credentials.username (Credentials.unknown "user1")) =
      some user1Data ∧
    ((∀ conf, user1Data.configuration = some conf →
      ∃ a, getAccountConfiguration witnessDb (Credentials.unknown "user1") =
          some a ∧
        a.name = Credentials.username (Credentials.unknown "user1") ∧
        a.create_home_folder = conf.create_home_folder ∧
        a.home_folder_path = conf.home_folder_path) ∧
    (user1Data.configuration = none →
      getAccountConfiguration witnessDb (Credentials.unknown "user1") =
        none)) :=
  ⟨by decide,
    C8_configuration_lookup witnessDb (Credentials.unknown "user1")
      user1Data (by decide)⟩

/-- Claim C10: for a username absent from the users database,
`getAccountConfiguration` returns `none` and raises nothing, the same
outcome as for a present account that has no configuration entry. -/
theorem C10_absent_username_configuration
    (users_database : UsersDatabase) (credentials : Credentials)
    (habs : users_database credentials.username = none) :
    getAccountConfiguration users_database credentials = none ∧
    (∀ (db2 : UsersDatabase) (acc : Account),
      db2 credentials.username = some acc → acc.configuration = none →
      getAccountConfiguration db2 credentials = none) := by
  constructor
  · simp [getAccountConfiguration, habs]
  · intro db2 acc hacc hconf
    simp [getAccountConfiguration, hacc, hconf]

/-- Witness for C10, instantiated at a username not in the database;
the second component is exercised at `user3`, which has no configuration
entry. -/
theorem C10_absent_username_configuration_witness :
    witnessDb (Credentials.username (Credentials.unknown "nobody")) =
      none ∧
    (getAccountConfiguration witnessDb (Credentials.unknown "nobody") =
      none ∧
    (∀ (db2 : UsersDatabase) (acc : Account),
      db2 (Credentials.username (Credentials.unknown "nobody")) =
          some acc →
      acc.configuration = none →
      getAccountConfiguration db2 (Credentials.unknown "nobody") =
        none)) :=
  ⟨by decide,
    C10_absent_username_configuration witnessDb
      (Credentials.unknown "nobody") (by decide)⟩
